import Mathlib

/-!
Shallow embedding of the ngx-translate-db translation cache.

The authoritative implementation embedded here is the shipped bundle
`src/dist/fesm2022/ngx-translate-db.mjs` (classes `TranslationDBService` and
`TranslateService`).  Earlier snapshots of `loadTranslations` from
`src/src/lib/services/translate.service.ts` and `src/unnamed/part_000` are
embedded separately where a claim compares the two.

Modelling conventions:
- JavaScript objects and `Map`s are association lists preserving insertion
  order (`Object.keys` / `Map` iteration order).  Property read is first
  match; `Map.set` / property write replaces in place or appends.
- The IndexedDB adapter swallows every storage error (each of its methods has
  a `try`/`catch` that logs and returns a neutral value), so the embedding
  takes the adapter's success path over explicit store contents.
- The asynchronous methods are embedded as state transformers over a `World`
  that also counts the externally observable effects (store opens, store
  puts, remote fetch invocations).  A fulfilled promise is `InitResult.resolved`;
  a synchronous `throw` from `validateConfig` is `InitResult.configError`.
-/

namespace NgxTranslateDB

/-- Read of a JavaScript object property / `Map.get`: first binding wins
(association lists here never carry duplicate keys when they come from real
JS objects). -/
def jsGet {α : Type} : List (String × α) → String → Option α
  | [], _ => none
  | (l, v) :: rest, field => if l = field then some v else jsGet rest field

/-- Write of a JavaScript object property / `Map.set`: replaces the binding in
place when the key exists (keeping its position in insertion order),
otherwise appends. -/
def jsSet {α : Type} : List (String × α) → String → α → List (String × α)
  | [], field, v => [(field, v)]
  | (l, w) :: rest, field, v =>
    if l = field then (l, v) :: rest else (l, w) :: jsSet rest field v

/-- interface TranslationValue: language code to display text, in insertion
order. -/
abbrev TranslationValue := List (String × String)

/-- The shape of both the in-memory `Map` of `TranslateService` and the
IndexedDB backing store: translation key to entry. -/
abbrev TranslationsMap := List (String × TranslationValue)

/-- interface TranslationConfig, as consumed by the shipped
`TranslateService.init` / `validateConfig`. -/
structure TranslationConfig where
  projectId : String
  endpoint : String
  defaultLang : String
  acceptedLanguages : List String
  apiKey : Option String := none
deriving DecidableEq

/-- The mutable fields of the shipped `TranslateService`.
`initStarted` models `this.initPromise !== null`; `loading` models
`this.loadingState.value`; `langEmits` records the values pushed through
`langChangeSubject` (seeded with the `BehaviorSubject` initial value). -/
structure ServiceState where
  currentLang : String := "en"
  acceptedLanguages : List String := []
  translations : TranslationsMap := []
  loading : Bool := true
  initStarted : Bool := false
  langEmits : List String := ["en"]
deriving DecidableEq

/-- The state owned by `TranslationDBService`: whether `openDB` completed and
the contents of the `translations` object store. -/
structure DBState where
  opened : Bool := false
  store : TranslationsMap := []
deriving DecidableEq

/-- A service instance together with its durable store and counters for the
externally observable effects. -/
structure World where
  svc : ServiceState := {}
  db : DBState := {}
  dbOpenCount : Nat := 0
  dbPutCount : Nat := 0
  fetchCount : Nat := 0
deriving DecidableEq

/-- Outcome of the external `fetch` collaborator: a parsed JSON body on
success; `failure` covers both a rejected `fetch` and a non-ok response
(the shipped code routes both through `loadFromCache`). -/
inductive FetchOutcome
  | success (data : TranslationsMap)
  | failure
deriving DecidableEq

/-- Result of a call to `TranslateService.init`.  `alreadyStarted` is the
early return of the existing `initPromise`; `configError` is the synchronous
`throw` from `validateConfig`; `resolved` means the returned promise
fulfilled. -/
inductive InitResult
  | alreadyStarted
  | configError (msg : String)
  | resolved
deriving DecidableEq

/-- TranslateService.isLanguageSupported: during initialization every
language is considered supported; afterwards membership in
`acceptedLanguages` decides. -/
def isLanguageSupported (s : ServiceState) (lang : String) : Bool :=
  if s.loading then true else s.acceptedLanguages.contains lang

/-- TranslateService.setLanguage: an unsupported language falls back to
`this.acceptedLanguages[0]` (modelled as `headD ""`; the JS read yields
`undefined` on an empty array, which is unreachable once `validateConfig`
has passed), then `currentLang` is assigned and the new value is emitted on
`langChangeSubject`.  The conditional `await waitForInitialization()` does
not change any state. -/
def setLanguage (w : World) (lang : String) : World :=
  let s := w.svc
  let lang2 := if isLanguageSupported s lang then lang else s.acceptedLanguages.headD ""
  { w with svc := { s with currentLang := lang2, langEmits := s.langEmits ++ [lang2] } }

/-- Helper for `getTranslationFallback`: `Object.keys(translation)` followed
by `translation[languages[0]]` when non-empty, else the key. -/
def anyLanguageOrKey (translation : TranslationValue) (key : String) : String :=
  match translation with
  | [] => key
  | (_, v) :: _ => v

/-- TranslateService.getTranslationFallback: try
`translation[this.acceptedLanguages[0]]` (skipped when `undefined` or the
empty string, because the JS test `if (defaultValue)` is a truthiness test),
then the first language in insertion order, then the key itself. -/
def getTranslationFallback (s : ServiceState) (key : String) : String :=
  match jsGet s.translations key with
  | none => key
  | some translation =>
    match jsGet translation (s.acceptedLanguages.headD "") with
    | some v => if v = "" then anyLanguageOrKey translation key else v
    | none => anyLanguageOrKey translation key

/-- TranslateService.getTranslation: the entry's text for `currentLang`
(returned even when it is the empty string, because the JS fallback operator
is the nullish `??`), else `getTranslationFallback`. -/
def getTranslation (s : ServiceState) (key : String) : String :=
  match jsGet s.translations key with
  | none => getTranslationFallback s key
  | some translation =>
    match jsGet translation s.currentLang with
    | some v => v
    | none => getTranslationFallback s key

/-- TranslateService.instant: echo the key when no `initPromise` exists,
otherwise the fallback path while loading and the normal path when ready.
The function is total: the synchronous lookup cannot throw. -/
def instant (s : ServiceState) (key : String) : String :=
  if s.initStarted = false then key
  else if s.loading then getTranslationFallback s key
  else getTranslation s key

/-- TranslationDBService.init: `openDB` on the configured database (success
path; its `catch` only logs). -/
def dbInit (w : World) : World :=
  { w with db := { w.db with opened := true }, dbOpenCount := w.dbOpenCount + 1 }

/-- TranslationDBService.saveToCache: `db.put` upsert into the
`translations` store (success path; its `catch` only logs). -/
def saveToCache (w : World) (key : String) (value : TranslationValue) : World :=
  { w with db := { w.db with store := jsSet w.db.store key value },
           dbPutCount := w.dbPutCount + 1 }

/-- TranslationDBService.getAllFromCache: rebuilds the key-to-entry mapping
from `getAll` plus `getAllKeys`, i.e. the store contents. -/
def getAllFromCache (w : World) : TranslationsMap :=
  w.db.store

/-- Folding a key/entry list into a map with `jsSet`, the shape shared by
both population loops of the shipped service. -/
def applyEntries (data : TranslationsMap) (t : TranslationsMap) : TranslationsMap :=
  data.foldl (fun acc kv => jsSet acc kv.1 kv.2) t

/-- One iteration of the `Promise.all` body in the shipped
`loadTranslations`: `saveToCache(key, value)` then
`this.translations.set(key, value)`. -/
def storeEntry (w : World) (kv : String × TranslationValue) : World :=
  let w1 := saveToCache w kv.1 kv.2
  { w1 with svc := { w1.svc with translations := jsSet w1.svc.translations kv.1 kv.2 } }

/-- TranslateService.loadFromCache (shipped bundle): read everything from the
durable store; when non-empty, `set` every entry into the in-memory map;
when empty, only a warning is logged and nothing changes. -/
def loadFromCache (w : World) : World :=
  let cached := getAllFromCache w
  if cached.isEmpty then w
  else { w with svc := { w.svc with translations := applyEntries cached w.svc.translations } }

/-- TranslateService.loadTranslations (shipped bundle,
`src/dist/fesm2022/ngx-translate-db.mjs` lines 424-445): the remote `fetch`
is always attempted first; on a parsed body every entry is written through
`saveToCache` and into the in-memory map; on a rejected fetch or a non-ok
response the durable store is read as the fallback. -/
def loadTranslations (w : World) (fetched : FetchOutcome) : World :=
  let w1 := { w with fetchCount := w.fetchCount + 1 }
  match fetched with
  | FetchOutcome.success data => data.foldl storeEntry w1
  | FetchOutcome.failure => loadFromCache w1

/-- TranslateService.loadTranslations as in the earlier source snapshots
(`src/src/lib/services/translate.service.ts` lines 186-210 and
`src/unnamed/part_000` lines 63-97): `getAllKeys` first; when the store is
non-empty every stored entry is loaded into memory and no fetch happens;
only an empty store triggers the fetch (whose own `catch` returns an empty
object, so a failed fetch stores nothing). -/
def loadTranslationsSnapshot (w : World) (fetched : FetchOutcome) : World :=
  if w.db.store.isEmpty then
    let w1 := { w with fetchCount := w.fetchCount + 1 }
    match fetched with
    | FetchOutcome.success data => data.foldl storeEntry w1
    | FetchOutcome.failure => w1
  else
    { w with svc := { w.svc with translations := applyEntries w.db.store w.svc.translations } }

/-- TranslateService.validateConfig: `acceptedLanguages` must be non-empty
and contain `defaultLang`; a violation throws synchronously. -/
def validateConfig (config : TranslationConfig) : Option String :=
  if config.acceptedLanguages.isEmpty then
    some "acceptedLanguages must be provided and contain at least one language code"
  else if config.acceptedLanguages.contains config.defaultLang = false then
    some "defaultLang must be included in acceptedLanguages"
  else none

/-- TranslateService.init (shipped bundle): return the existing promise when
one exists; validate the configuration synchronously; then copy
`acceptedLanguages`, set the default language (accepted unconditionally
because `loadingState` is still `true`), open the database, run
`loadTranslations`, and flip `loadingState` to `false`.  Every failure mode
of the collaborators is swallowed by their own handlers, so the promise
resolves whenever validation passed. -/
def init (w : World) (config : TranslationConfig) (fetched : FetchOutcome) :
    InitResult × World :=
  if w.svc.initStarted then (InitResult.alreadyStarted, w)
  else
    match validateConfig config with
    | some msg => (InitResult.configError msg, w)
    | none =>
      let w1 := { w with svc := { w.svc with
                                  initStarted := true
                                  acceptedLanguages := config.acceptedLanguages } }
      let w2 := setLanguage w1 config.defaultLang
      let w3 := dbInit w2
      let w4 := loadTranslations w3 fetched
      (InitResult.resolved, { w4 with svc := { w4.svc with loading := false } })

/-!
Helper lemmas about the population fold and the map primitives.
-/

/-- Overwriting one binding never removes any key from the map. -/
theorem jsGet_jsSet_isSome {α : Type} (k : String) (v : α) (k2 : String) :
    ∀ m : List (String × α), (jsGet m k2).isSome = true →
      (jsGet (jsSet m k v) k2).isSome = true := by
  intro m
  induction m with
  | nil => intro h; simp [jsGet] at h
  | cons p rest ih =>
    intro h
    obtain ⟨l, x⟩ := p
    by_cases hlk : l = k
    · have e1 : jsSet ((l, x) :: rest) k v = (l, v) :: rest := by simp [jsSet, hlk]
      rw [e1]
      by_cases hlk2 : l = k2
      · simp [jsGet, hlk2]
      · have e2 : jsGet ((l, v) :: rest) k2 = jsGet rest k2 := by simp [jsGet, hlk2]
        have e3 : jsGet ((l, x) :: rest) k2 = jsGet rest k2 := by simp [jsGet, hlk2]
        rw [e3] at h
        rw [e2]
        exact h
    · have e1 : jsSet ((l, x) :: rest) k v = (l, x) :: jsSet rest k v := by
        simp [jsSet, hlk]
      rw [e1]
      by_cases hlk2 : l = k2
      · simp [jsGet, hlk2]
      · have e2 : jsGet ((l, x) :: jsSet rest k v) k2 = jsGet (jsSet rest k v) k2 := by
          simp [jsGet, hlk2]
        have e3 : jsGet ((l, x) :: rest) k2 = jsGet rest k2 := by simp [jsGet, hlk2]
        rw [e3] at h
        rw [e2]
        exact ih h

/-- Folding entries into a map never removes any key. -/
theorem applyEntries_isSome_mono (data : TranslationsMap) (k : String) :
    ∀ t : TranslationsMap, (jsGet t k).isSome = true →
      (jsGet (applyEntries data t) k).isSome = true := by
  induction data with
  | nil => intro t h; simpa [applyEntries] using h
  | cons kv rest ih =>
    intro t h
    have hstep : applyEntries (kv :: rest) t = applyEntries rest (jsSet t kv.1 kv.2) := rfl
    rw [hstep]
    exact ih _ (jsGet_jsSet_isSome kv.1 kv.2 k t h)

theorem applyEntries_append (a b : TranslationsMap) (t : TranslationsMap) :
    applyEntries (a ++ b) t = applyEntries b (applyEntries a t) := by
  simp [applyEntries, List.foldl_append]

@[simp] theorem foldl_storeEntry_initStarted (data : TranslationsMap) (w : World) :
    (data.foldl storeEntry w).svc.initStarted = w.svc.initStarted := by
  induction data generalizing w with
  | nil => rfl
  | cons kv rest ih => simpa [storeEntry, saveToCache] using ih (storeEntry w kv)

@[simp] theorem foldl_storeEntry_loading (data : TranslationsMap) (w : World) :
    (data.foldl storeEntry w).svc.loading = w.svc.loading := by
  induction data generalizing w with
  | nil => rfl
  | cons kv rest ih => simpa [storeEntry, saveToCache] using ih (storeEntry w kv)

@[simp] theorem foldl_storeEntry_acceptedLanguages (data : TranslationsMap) (w : World) :
    (data.foldl storeEntry w).svc.acceptedLanguages = w.svc.acceptedLanguages := by
  induction data generalizing w with
  | nil => rfl
  | cons kv rest ih => simpa [storeEntry, saveToCache] using ih (storeEntry w kv)

@[simp] theorem foldl_storeEntry_currentLang (data : TranslationsMap) (w : World) :
    (data.foldl storeEntry w).svc.currentLang = w.svc.currentLang := by
  induction data generalizing w with
  | nil => rfl
  | cons kv rest ih => simpa [storeEntry, saveToCache] using ih (storeEntry w kv)

@[simp] theorem foldl_storeEntry_dbOpenCount (data : TranslationsMap) (w : World) :
    (data.foldl storeEntry w).dbOpenCount = w.dbOpenCount := by
  induction data generalizing w with
  | nil => rfl
  | cons kv rest ih => simpa [storeEntry, saveToCache] using ih (storeEntry w kv)

@[simp] theorem foldl_storeEntry_fetchCount (data : TranslationsMap) (w : World) :
    (data.foldl storeEntry w).fetchCount = w.fetchCount := by
  induction data generalizing w with
  | nil => rfl
  | cons kv rest ih => simpa [storeEntry, saveToCache] using ih (storeEntry w kv)

/-- The in-memory snapshot produced by the population loop of the shipped
`loadTranslations` is exactly the fold of the fetched entries over the
snapshot it started from. -/
@[simp] theorem foldl_storeEntry_translations (data : TranslationsMap) (w : World) :
    (data.foldl storeEntry w).svc.translations = applyEntries data w.svc.translations := by
  induction data generalizing w with
  | nil => rfl
  | cons kv rest ih =>
    have hstep : ((kv :: rest).foldl storeEntry w).svc.translations
        = (rest.foldl storeEntry (storeEntry w kv)).svc.translations := rfl
    rw [hstep, ih (storeEntry w kv)]
    simp [storeEntry, saveToCache, applyEntries]

@[simp] theorem loadFromCache_initStarted (w : World) :
    (loadFromCache w).svc.initStarted = w.svc.initStarted := by
  simp only [loadFromCache]
  split <;> rfl

@[simp] theorem loadFromCache_loading (w : World) :
    (loadFromCache w).svc.loading = w.svc.loading := by
  simp only [loadFromCache]
  split <;> rfl

@[simp] theorem loadFromCache_dbOpenCount (w : World) :
    (loadFromCache w).dbOpenCount = w.dbOpenCount := by
  simp only [loadFromCache]
  split <;> rfl

@[simp] theorem loadFromCache_fetchCount (w : World) :
    (loadFromCache w).fetchCount = w.fetchCount := by
  simp only [loadFromCache]
  split <;> rfl

/-- The cache fallback loads exactly the stored entries over the current
snapshot (when the store is empty both sides are the unchanged snapshot). -/
theorem loadFromCache_translations (w : World) :
    (loadFromCache w).svc.translations
      = applyEntries (getAllFromCache w) w.svc.translations := by
  simp only [loadFromCache]
  split
  · next h =>
    rw [List.isEmpty_iff] at h
    rw [h]
    rfl
  · rfl

/-!
Concrete evaluation points shared by the claim theorems below.
-/

/-- A configuration accepted by `validateConfig`, with the default language
listed first. -/
def demoConfig : TranslationConfig :=
  { projectId := "demo", endpoint := "ep", defaultLang := "en",
    acceptedLanguages := ["en", "fr", "de"] }

/-- The fetch body used by the spec's examples. -/
def demoData : TranslationsMap :=
  [("BTN_LOGIN", [("en", "Login"), ("fr", "Connexion")]),
   ("GREET", [("en", "Hello"), ("fr", "Bonjour")])]

/-- A service brought to the ready state by a full successful run of the
shipped `init` on a fresh world. -/
def readyWorld : World :=
  (init { } demoConfig (FetchOutcome.success demoData)).2

/-!
Claim theorems.
-/

/-- C1: the claim says cache population is offline-first (the durable store is
queried first and, when it is non-empty, no remote fetch happens).  The
shipped `loadTranslations` does the opposite: it always invokes the remote
fetch collaborator and reads the store only after a fetch failure.  On a
world whose durable store is pre-populated with `BTN_LOGIN` (the spec's own
offline-first test vector), a successful `init` run still performs exactly
one fetch, while the earlier snapshot's cache-first `loadTranslations`
(still in the repository sources) performs none on the same store.  The
shipped code thus contradicts its own offline-first documentation. -/
theorem C1_dist_fetches_despite_populated_store :
    (init { db := { opened := false, store := [("BTN_LOGIN", [("en", "Login")])] } }
        demoConfig
        (FetchOutcome.success demoData)).2.fetchCount = 1 ∧
    (loadTranslationsSnapshot
        { db := { opened := true, store := [("BTN_LOGIN", [("en", "Login")])] } }
        (FetchOutcome.success demoData)).fetchCount = 0 := by
  exact ⟨rfl, rfl⟩

/-- C3: for every key absent from the in-memory cache, the synchronous lookup
`instant` returns the key string itself verbatim, whatever the
initialization state is (no `initPromise` yet, still loading, ready after a
successful run, or after a failed run — `loading` and `initStarted` range
over all combinations).  `instant` is a total function, so it never throws,
and the echoed key is never empty or undefined for a non-empty key. -/
theorem C3_unknown_key_echoed (s : ServiceState) (key : String)
    (h : jsGet s.translations key = none) : instant s key = key := by
  unfold instant
  split
  · rfl
  · split
    · simp [getTranslationFallback, h]
    · simp [getTranslation, getTranslationFallback, h]

theorem C3_unknown_key_echoed_witness :
    jsGet readyWorld.svc.translations "UNKNOWN_KEY" = none ∧
    instant readyWorld.svc "UNKNOWN_KEY" = "UNKNOWN_KEY" := by
  exact ⟨rfl, C3_unknown_key_echoed readyWorld.svc "UNKNOWN_KEY" rfl⟩

/-- C7 counterexample: with the reachable configuration
`acceptedLanguages = ["fr", "en"]`, `defaultLang = "en"` (valid, since the
default is a member), a post-initialization `setLanguage "xx"` with an
unsupported language leaves `currentLang = "fr" = acceptedLanguages[0]`, not
the configured default language `"en"` as the claim requires. -/
theorem C7_counterexample :
    (setLanguage
      ((init { }
        { projectId := "demo", endpoint := "ep", defaultLang := "en",
          acceptedLanguages := ["fr", "en"] }
        (FetchOutcome.success demoData)).2)
      "xx").svc.currentLang = "fr" ∧
    (setLanguage
      ((init { }
        { projectId := "demo", endpoint := "ep", defaultLang := "en",
          acceptedLanguages := ["fr", "en"] }
        (FetchOutcome.success demoData)).2)
      "xx").svc.currentLang ≠ "en" := by
  exact ⟨rfl, by decide⟩

/-- C7 amended: after initialization completes (`loading = false`),
`setLanguage` with a language outside `acceptedLanguages` resolves without
throwing (the embedded transformer is total) and leaves `currentLang` equal
to the FIRST accepted language `acceptedLanguages[0]`, which coincides with
the configured default language only when that language is listed first. -/
theorem C7_unsupported_language_first_accepted (w : World) (lang : String)
    (hready : w.svc.loading = false)
    (hunsup : w.svc.acceptedLanguages.contains lang = false) :
    (setLanguage w lang).svc.currentLang = w.svc.acceptedLanguages.headD "" := by
  have hmem : ¬ lang ∈ w.svc.acceptedLanguages := by simpa using hunsup
  simp [setLanguage, isLanguageSupported, hready, hmem]

theorem C7_unsupported_language_first_accepted_witness :
    readyWorld.svc.loading = false ∧
    readyWorld.svc.acceptedLanguages.contains "xx" = false ∧
    (setLanguage readyWorld "xx").svc.currentLang
      = readyWorld.svc.acceptedLanguages.headD "" := by
  exact ⟨rfl, rfl, C7_unsupported_language_first_accepted readyWorld "xx" rfl rfl⟩

/-- C8: `setLanguage` mutates only `currentLang` and appends one emission to
the language-change subject; the durable store, every effect counter and the
in-memory snapshot are untouched, and an `instant` lookup issued afterwards
serves the new language's text from that same snapshot. -/
theorem C8_setLanguage_frame (w : World) (lang : String) :
    (setLanguage w lang).db = w.db ∧
    (setLanguage w lang).dbOpenCount = w.dbOpenCount ∧
    (setLanguage w lang).dbPutCount = w.dbPutCount ∧
    (setLanguage w lang).fetchCount = w.fetchCount ∧
    (setLanguage w lang).svc.translations = w.svc.translations ∧
    (setLanguage w lang).svc.loading = w.svc.loading ∧
    (setLanguage w lang).svc.initStarted = w.svc.initStarted ∧
    (setLanguage w lang).svc.langEmits
      = w.svc.langEmits ++ [(setLanguage w lang).svc.currentLang] ∧
    (∀ key entry v, w.svc.initStarted = true → w.svc.loading = false →
      w.svc.acceptedLanguages.contains lang = true →
      jsGet w.svc.translations key = some entry →
      jsGet entry lang = some v →
      instant (setLanguage w lang).svc key = v) := by
  refine ⟨rfl, rfl, rfl, rfl, rfl, rfl, rfl, rfl, ?_⟩
  intro key entry v hstart hready hsup hfound hlang
  have hmem : lang ∈ w.svc.acceptedLanguages := by simpa using hsup
  simp [instant, setLanguage, isLanguageSupported, hready, hmem, hstart,
    getTranslation, hfound, hlang]

theorem C8_setLanguage_frame_witness :
    instant (setLanguage readyWorld "fr").svc "BTN_LOGIN" = "Connexion" := by
  exact (C8_setLanguage_frame readyWorld "fr").2.2.2.2.2.2.2.2
    "BTN_LOGIN" [("en", "Login"), ("fr", "Connexion")] "Connexion"
    rfl rfl rfl rfl rfl

/-- C10: while initialization is still loading, `isLanguageSupported` accepts
every language string, so a `setLanguage lang` issued before initialization
completes sets `currentLang` to exactly `lang` with no fallback applied,
even when `lang` is outside `acceptedLanguages`. -/
theorem C10_preready_accepts_any_language (w : World) (lang : String)
    (hload : w.svc.loading = true) :
    isLanguageSupported w.svc lang = true ∧
    (setLanguage w lang).svc.currentLang = lang := by
  have h : isLanguageSupported w.svc lang = true := by
    simp [isLanguageSupported, hload]
  exact ⟨h, by simp [setLanguage, h]⟩

theorem C10_preready_accepts_any_language_witness :
    (({ svc := { acceptedLanguages := ["en"], loading := true } } : World)).svc.acceptedLanguages.contains "xx" = false ∧
    (setLanguage { svc := { acceptedLanguages := ["en"], loading := true } } "xx").svc.currentLang = "xx" := by
  exact ⟨rfl,
    (C10_preready_accepts_any_language
      { svc := { acceptedLanguages := ["en"], loading := true } } "xx" rfl).2⟩

/-- When a cached entry exists but lacks the current language, both branches
of `instant` reduce to `getTranslationFallback`. -/
theorem instant_eq_fallback (s : ServiceState) (key : String) (entry : TranslationValue)
    (hstart : s.initStarted = true)
    (hfound : jsGet s.translations key = some entry)
    (hmiss : jsGet entry s.currentLang = none) :
    instant s key = getTranslationFallback s key := by
  cases hsl : s.loading
  · simp [instant, hstart, hsl, getTranslation, hfound, hmiss]
  · simp [instant, hstart, hsl]

/-- Reachable state for the C2 counterexample: full successful `init` with
`acceptedLanguages = ["fr", "en", "de"]` and `defaultLang = "en"` (a valid
configuration), followed by `setLanguage "de"` (supported, so adopted). -/
def c2World : World :=
  setLanguage
    ((init { }
      { projectId := "demo", endpoint := "ep", defaultLang := "en",
        acceptedLanguages := ["fr", "en", "de"] }
      (FetchOutcome.success [("GREET", [("en", "Hello"), ("fr", "Bonjour")])])).2)
    "de"

/-- Second reachable state for the C2 counterexample, isolating the
truthiness test: here the default language IS listed first
(`acceptedLanguages = ["en", "fr", "de"]`, `defaultLang = "en"`), but the
entry's text for it is the empty string. -/
def c2TruthWorld : World :=
  setLanguage
    ((init { } demoConfig
      (FetchOutcome.success [("EMPTYCASE", [("fr", "Bonjour"), ("en", "")])])).2)
    "de"

/-- C2 counterexample, refuting the claimed resolution order at two reachable
inputs.  First: for the entry `en: Hello, fr: Bonjour` with configured
default language `en`, `acceptedLanguages = ["fr", "en", "de"]` and current
language `de`, the claim requires the lookup to return `Hello` (text of the
configured default language); the shipped fallback instead reads
`translation[acceptedLanguages[0]]`, here `fr`, and returns `Bonjour`.
Second: for the entry `fr: Bonjour, en: ""` with the default language `en`
listed first and current language `de`, the claim requires the lookup to
return the default language's text, the empty string; the shipped fallback's
JS truthiness test `if (defaultValue)` skips the empty string and returns
`Bonjour`, the first text in insertion order. -/
theorem C2_counterexample :
    (instant c2World.svc "GREET" = "Bonjour" ∧
     instant c2World.svc "GREET" ≠ "Hello") ∧
    (instant c2TruthWorld.svc "EMPTYCASE" = "Bonjour" ∧
     instant c2TruthWorld.svc "EMPTYCASE" ≠ "") := by
  exact ⟨⟨rfl, by decide⟩, ⟨rfl, by decide⟩⟩

/-- C2 amended: for every key whose cached entry lacks the current language,
lookup resolves in this order: (1) the text for the FIRST accepted language
`acceptedLanguages[0]` — which equals the configured default language only
when that language is listed first — provided that text is non-empty; (2)
when that text is the empty string (skipped by the JS truthiness test) or
absent, the text of the first language of the entry in insertion order, or
the literal key string for an empty entry (`anyLanguageOrKey`); and the
pre-ready (`loading = true`) and ready (`loading = false`) paths of
`instant` return the same value. -/
theorem C2_fallback_order (s : ServiceState) (key : String) (entry : TranslationValue)
    (hstart : s.initStarted = true)
    (hfound : jsGet s.translations key = some entry)
    (hmiss : jsGet entry s.currentLang = none) :
    (∀ v, jsGet entry (s.acceptedLanguages.headD "") = some v → v ≠ "" →
        instant s key = v) ∧
    (jsGet entry (s.acceptedLanguages.headD "") = some "" →
        instant s key = anyLanguageOrKey entry key) ∧
    (jsGet entry (s.acceptedLanguages.headD "") = none →
        instant s key = anyLanguageOrKey entry key) ∧
    instant { s with loading := true } key = instant { s with loading := false } key := by
  have hs : instant s key = getTranslationFallback s key :=
    instant_eq_fallback s key entry hstart hfound hmiss
  have htrue : instant { s with loading := true } key = getTranslationFallback s key :=
    instant_eq_fallback { s with loading := true } key entry hstart hfound hmiss
  have hfalse : instant { s with loading := false } key = getTranslationFallback s key :=
    instant_eq_fallback { s with loading := false } key entry hstart hfound hmiss
  refine ⟨?_, ?_, ?_, ?_⟩
  · intro v hv hne
    rw [hs]
    unfold getTranslationFallback
    rw [hfound]
    simp only [hv]
    rw [if_neg hne]
  · intro hempty
    rw [hs]
    unfold getTranslationFallback
    rw [hfound]
    simp only [hempty]
    simp
  · intro hnone
    rw [hs]
    unfold getTranslationFallback
    rw [hfound]
    simp only [hnone]
  · rw [htrue, hfalse]

theorem C2_fallback_order_witness :
    instant c2World.svc "GREET" = "Bonjour" ∧
    instant c2TruthWorld.svc "EMPTYCASE" = "Bonjour" := by
  constructor
  · exact (C2_fallback_order c2World.svc "GREET" [("en", "Hello"), ("fr", "Bonjour")]
      rfl rfl rfl).1 "Bonjour" rfl (by decide)
  · exact (C2_fallback_order c2TruthWorld.svc "EMPTYCASE" [("fr", "Bonjour"), ("en", "")]
      rfl rfl rfl).2.1 rfl

/-- C4 counterexample: with a valid configuration, an empty durable store and
a failing remote fetch, the shipped `init` neither enters a FAILED state nor
rejects: the promise resolves (`InitResult.resolved`), the snapshot stays
empty and the loading flag is simply dropped to false, because
`loadFromCache` only logs a warning when the store is empty and every error
is swallowed before it can reach the rejection path of `init`. -/
theorem C4_counterexample :
    (init { } demoConfig FetchOutcome.failure).1 = InitResult.resolved ∧
    (init { } demoConfig FetchOutcome.failure).2.svc.translations = [] ∧
    (init { } demoConfig FetchOutcome.failure).2.svc.loading = false := by
  exact ⟨rfl, rfl, rfl⟩

/-- C4 amended: if the remote fetch fails during initialization and the
durable-store fallback is empty, `init` resolves successfully (no rejection,
no FAILED transition): the snapshot is left unchanged and the loading state
becomes false. -/
theorem C4_fetch_failure_resolves (w : World) (config : TranslationConfig)
    (h0 : w.svc.initStarted = false)
    (hv : validateConfig config = none)
    (hstore : w.db.store = []) :
    (init w config FetchOutcome.failure).1 = InitResult.resolved ∧
    (init w config FetchOutcome.failure).2.svc.translations = w.svc.translations ∧
    (init w config FetchOutcome.failure).2.svc.loading = false := by
  simp [init, h0, hv, loadTranslations, loadFromCache, getAllFromCache, dbInit,
    setLanguage, hstore]

theorem C4_fetch_failure_resolves_witness :
    validateConfig demoConfig = none ∧
    (init { } demoConfig FetchOutcome.failure).1 = InitResult.resolved ∧
    (init { } demoConfig FetchOutcome.failure).2.svc.translations = [] ∧
    (init { } demoConfig FetchOutcome.failure).2.svc.loading = false := by
  have h := C4_fetch_failure_resolves { } demoConfig rfl rfl rfl
  exact ⟨rfl, h.1, h.2.1, h.2.2⟩

/-- C5: `init` is idempotent.  A second call made after (or while) a first
validated call has begun finds `initPromise` set and returns it unchanged,
re-running no side effect: the first run performs exactly one durable-store
open and exactly one remote fetch attempt (hence at most one), and the
second call is the identity on the world. -/
theorem C5_init_idempotent (w : World) (cfg cfg2 : TranslationConfig)
    (f f2 : FetchOutcome)
    (h0 : w.svc.initStarted = false) (hv : validateConfig cfg = none) :
    init ((init w cfg f).2) cfg2 f2 = (InitResult.alreadyStarted, (init w cfg f).2) ∧
    (init w cfg f).2.dbOpenCount = w.dbOpenCount + 1 ∧
    (init w cfg f).2.fetchCount = w.fetchCount + 1 := by
  refine ⟨?_, ?_, ?_⟩
  · have h1 : (init w cfg f).2.svc.initStarted = true := by
      cases f <;> simp [init, h0, hv, setLanguage, dbInit, loadTranslations]
    generalize hX : (init w cfg f).2 = X at h1 ⊢
    simp [init, h1]
  · cases f <;> simp [init, h0, hv, setLanguage, dbInit, loadTranslations]
  · cases f <;> simp [init, h0, hv, setLanguage, dbInit, loadTranslations]

theorem C5_init_idempotent_witness :
    init readyWorld demoConfig (FetchOutcome.success demoData)
      = (InitResult.alreadyStarted, readyWorld) ∧
    readyWorld.dbOpenCount = 1 ∧
    readyWorld.fetchCount = 1 := by
  have h := C5_init_idempotent { } demoConfig demoConfig
    (FetchOutcome.success demoData) (FetchOutcome.success demoData) rfl rfl
  exact ⟨h.1, h.2.1, h.2.2⟩

/-- C6: when the configured default language is not a member of the accepted
languages (which subsumes an empty accepted-language list, since an empty
list contains nothing), a first call to `init` throws synchronously from
`validateConfig` and returns the world completely unchanged: no durable
store open, no remote fetch, no state mutation of any kind. -/
theorem C6_invalid_config_fails_fast (w : World) (cfg : TranslationConfig)
    (f : FetchOutcome)
    (h0 : w.svc.initStarted = false)
    (hlang : cfg.acceptedLanguages.contains cfg.defaultLang = false) :
    ∃ msg, init w cfg f = (InitResult.configError msg, w) := by
  by_cases he : cfg.acceptedLanguages.isEmpty = true
  · refine ⟨"acceptedLanguages must be provided and contain at least one language code", ?_⟩
    simp [init, h0, validateConfig, he]
  · have hmem : ¬ cfg.defaultLang ∈ cfg.acceptedLanguages := by simpa using hlang
    refine ⟨"defaultLang must be included in acceptedLanguages", ?_⟩
    simp [init, h0, validateConfig, he, hmem]

theorem C6_invalid_config_fails_fast_witness :
    (({ projectId := "demo", endpoint := "ep", defaultLang := "de",
        acceptedLanguages := ["en", "fr"] } : TranslationConfig)).acceptedLanguages.contains "de" = false ∧
    ∃ msg, init { }
      { projectId := "demo", endpoint := "ep", defaultLang := "de",
        acceptedLanguages := ["en", "fr"] }
      (FetchOutcome.success demoData)
      = (InitResult.configError msg, { }) := by
  exact ⟨rfl, C6_invalid_config_fails_fast { }
    { projectId := "demo", endpoint := "ep", defaultLang := "de",
      acceptedLanguages := ["en", "fr"] }
    (FetchOutcome.success demoData) rfl rfl⟩

/-- C9: the snapshot is monotonically non-decreasing during one population
pass.  The fetched entries are folded into the in-memory map by `jsSet`,
which only adds or overwrites, so the snapshot after any prefix of the
entries contains every key present after any shorter prefix; and the final
snapshots of both population branches (`loadTranslations` on a parsed body,
`loadFromCache` on the stored entries) are exactly those folds, so every
lookup served mid-initialization observes a subset-ordered chain. -/
theorem C9_snapshot_monotone (w : World) (data : TranslationsMap)
    (i j : Nat) (k : String) (hij : i ≤ j)
    (hi : (jsGet (applyEntries (data.take i) w.svc.translations) k).isSome = true) :
    (jsGet (applyEntries (data.take j) w.svc.translations) k).isSome = true ∧
    (loadTranslations w (FetchOutcome.success data)).svc.translations
      = applyEntries data w.svc.translations ∧
    (loadFromCache w).svc.translations
      = applyEntries (getAllFromCache w) w.svc.translations := by
  refine ⟨?_, ?_, loadFromCache_translations w⟩
  · have hj : i + (j - i) = j := Nat.add_sub_cancel' hij
    have hsplit : data.take j = data.take i ++ ((data.drop i).take (j - i)) := by
      conv_lhs => rw [← hj]
      exact List.take_add data i (j - i)
    rw [hsplit, applyEntries_append]
    exact applyEntries_isSome_mono _ _ _ hi
  · simp [loadTranslations]

theorem C9_snapshot_monotone_witness :
    (jsGet (applyEntries (demoData.take 1) ([] : TranslationsMap)) "BTN_LOGIN").isSome = true ∧
    (jsGet (applyEntries (demoData.take 2) ([] : TranslationsMap)) "BTN_LOGIN").isSome = true ∧
    (loadTranslations { } (FetchOutcome.success demoData)).svc.translations
      = applyEntries demoData [] := by
  have h := C9_snapshot_monotone { } demoData 1 2 "BTN_LOGIN" (by decide) rfl
  exact ⟨rfl, h.1, h.2.1⟩

end NgxTranslateDB
